import Mathlib

/-!
Shallow embedding of the eBay scraper (`script.py`, class `EbayScraper`):
the record-extraction layer (`_extract_product_data`), the pagination loop
(`search` / `_scrape_page`), the condition filter (`filter_by_condition`),
the price statistics of `display_summary`, and the URL-parameter builder
inside `search`.

Modelling conventions:
- A BeautifulSoup `find` query on one listing node is embedded as the
  `Option String` of the found tag's `get_text(strip=True)` (or of its
  relevant attributes); `none` means the selector matched nothing.
- Python dicts built by inserting distinct literal keys in a fixed order
  are embedded as association lists in insertion order.
- `datetime.now()` is passed in as an explicit `now : String` parameter.
- Python `float(...)` on plain decimal strings is embedded as an exact
  `Option ℚ` parser (`pythonFloat`); every numeric value appearing in the
  claims is exactly representable, so ℚ and IEEE doubles agree on them.
-/

namespace EbayScraper

/-- A product record: the Python dict built by `_extract_product_data`,
as an association list in insertion order. -/
abbrev Record := List (String × String)

/-- First value bound to key `k` (Python `dict.get(k)` / `dict[k]`;
the dicts we build have distinct keys, so first-match lookup agrees). -/
def getVal {α : Type} : List (String × α) → String → Option α
  | [], _ => none
  | (a, b) :: t, k => if a = k then some b else getVal t k

/-- Python `needle.isPrefix-like` test on char lists: does `hay` start with `needle`? -/
def leadsWith : List Char → List Char → Bool
  | [], _ => true
  | _ :: _, [] => false
  | a :: as, b :: bs => a = b && leadsWith as bs

/-- Python substring containment `needle in hay` on char lists
(the empty needle is contained in everything). -/
def listSub (needle : List Char) : List Char → Bool
  | [] => needle.isEmpty
  | c :: rest => leadsWith needle (c :: rest) || listSub needle rest

/-- Python `needle in hay` on strings. -/
def strIn (needle hay : String) : Bool :=
  listSub needle.toList hay.toList

/-- Python `s.lower()`: lower-case every character.  (`Char.toLower`
lowers the ASCII range; every string this program compares is ASCII.) -/
def pyLower (s : String) : String :=
  ⟨s.data.map Char.toLower⟩

/-- Python `s.strip()`: drop whitespace from both ends. -/
def pyStrip (s : String) : String :=
  ⟨((s.data.dropWhile Char.isWhitespace).reverse.dropWhile
    Char.isWhitespace).reverse⟩

/-- One listing node (`item` in `_extract_product_data`): the results of
each BeautifulSoup query the code performs on it.  For text selectors the
field holds `get_text(strip=True)` of the first matching tag; for the link
it holds the optional `href` attribute of the found `a` tag; for the image
it holds the optional `src` and `data-src` attributes of the found `img`. -/
structure ListingNode where
  headingSpan : Option String       -- find('span', role='heading')
  titleDiv : Option String          -- find('div', class_='s-item__title')
  titleH3 : Option String           -- find('h3', class_='s-item__title')
  priceSpan : Option String         -- find('span', class_='s-item__price')
  secondaryInfoSpan : Option String -- find('span', class_='SECONDARY_INFO')
  condTextSpan : Option String      -- find('span', string=λ x: New/Used/Pre-Owned in x)
  shippingSpan : Option String      -- find('span', class_='s-item__shipping')
  logisticsCostSpan : Option String -- find('span', class_='s-item__logisticsCost')
  linkA : Option (Option String)    -- find('a', class_='s-item__link'), inner = href attr
  locationSpan : Option String      -- find('span', class_='s-item__location')
  itemLocationSpan : Option String  -- find('span', class_='s-item__itemLocation')
  imgTag : Option (Option String × Option String) -- find('img'), inner = (src, data-src)
  quantitySoldSpan : Option String  -- find('span', class_='s-item__quantitySold')
deriving DecidableEq, Repr

/-- Titles that cause the whole node to be rejected (script.py line 297). -/
def rejectTitles : List String := ["Shop on eBay", "New Listing", ""]

/-- The title fallback chain (lines 290-292): the three `find`s joined by
Python `or` (first found tag wins). -/
def titleResult (item : ListingNode) : Option String :=
  item.headingSpan <|> item.titleDiv <|> item.titleH3

/-- Price value (lines 306-308). -/
def priceValue (item : ListingNode) : String :=
  item.priceSpan.getD "N/A"

/-- Condition value (lines 311-314). -/
def conditionValue (item : ListingNode) : String :=
  (item.secondaryInfoSpan <|> item.condTextSpan).getD "N/A"

/-- Shipping value (lines 317-320). -/
def shippingValue (item : ListingNode) : String :=
  (item.shippingSpan <|> item.logisticsCostSpan).getD "N/A"

/-- URL value (lines 323-325): `a_tag['href'] if a_tag and 'href' in a_tag.attrs else 'N/A'`. -/
def urlValue (item : ListingNode) : String :=
  match item.linkA with
  | some (some href) => href
  | _ => "N/A"

/-- Location value (lines 328-331). -/
def locationValue (item : ListingNode) : String :=
  (item.locationSpan <|> item.itemLocationSpan).getD "N/A"

/-- Image-URL value (lines 334-339): `img_tag.get('src', img_tag.get('data-src', 'N/A'))`
if an `img` tag was found, else `'N/A'`. -/
def imageValue (item : ListingNode) : String :=
  match item.imgTag with
  | some (src, dataSrc) => (src <|> dataSrc).getD "N/A"
  | none => "N/A"

/-- Sold-count value (lines 342-344); note the no-match default is `'0'`. -/
def soldValue (item : ListingNode) : String :=
  item.quantitySoldSpan.getD "0"

/-- One `if field in self.selected_fields: product[field] = value` step:
the entry the dict gains, as a (possibly empty) list. -/
def optField (fields : List String) (name value : String) : List (String × String) :=
  if name ∈ fields then [(name, value)] else []

/-- The non-title entries of the record, in the source's insertion order
(lines 306-344). -/
def restFields (fields : List String) (item : ListingNode) : List (String × String) :=
  optField fields "price" (priceValue item) ++
  optField fields "condition" (conditionValue item) ++
  optField fields "shipping" (shippingValue item) ++
  optField fields "url" (urlValue item) ++
  optField fields "location" (locationValue item) ++
  optField fields "image_url" (imageValue item) ++
  optField fields "sold_count" (soldValue item)

/-- The title step of `_extract_product_data` (lines 289-303): when the
title field is requested, the record's title entry — or `none` when the
whole node is rejected (no title found, or a rejected placeholder title). -/
def titlePart (fields : List String) (item : ListingNode) :
    Option (List (String × String)) :=
  if "title" ∈ fields then
    match titleResult item with
    | some t => if t ∈ rejectTitles then none else some [("title", t)]
    | none => none
  else some []

/-- `EbayScraper._extract_product_data` (lines 283-353).  `fields` is
`self.selected_fields`, `now` the `datetime.now()` timestamp string.
The Python wraps the body in try/except returning `None`; the body itself
performs no raising operation on this data, so the embedding is the body:
the title step, then the other requested fields, the timestamp, and the
final more-than-the-timestamp check. -/
def extract_product_data (fields : List String) (now : String)
    (item : ListingNode) : Option Record :=
  match titlePart fields item with
  | none => none
  | some tp =>
    let product := tp ++ restFields fields item ++ [("scraped_at", now)]
    if 1 < product.length then some product else none

/-- Number of entries of a record other than the timestamp. -/
def nonTimestampCount (rec : Record) : Nat :=
  (rec.filter (fun e => e.1 != "scraped_at")).length

/-- Reason a fetch was actively blocked by the target service (spec §3). -/
inductive BlockReason where
  | rateLimited
  | captcha
  | forbidden
deriving DecidableEq, Repr

/-- Outcome of fetching one page.  `success` carries the listing nodes the
node-enumeration step of `_scrape_page` (lines 255-259) produced from the
body.  `httpError` covers a non-2xx raised by `raise_for_status`,
`transportError` a `requests` connection/timeout failure, and `blocked` the
403/429/captcha cases; in `_scrape_page` all three land in the `except`
clauses (lines 273-281), which swallow the exception and return `[]`. -/
inductive FetchOutcome where
  | success (items : List ListingNode)
  | httpError (status : Nat)
  | transportError (msg : String)
  | blocked (reason : BlockReason)
deriving DecidableEq, Repr

/-- Does the outcome take one of the `except` paths of `_scrape_page`? -/
def isFetchFailure : FetchOutcome → Bool
  | .success _ => false
  | _ => true

/-- `EbayScraper._scrape_page` (lines 245-281): on success, run
`_extract_product_data` on every enumerated node and keep the accepted
records; on any `requests` exception (HTTP error status, transport error,
or an active block), print an error and return the empty list. -/
def scrape_page (fields : List String) (now : String)
    (outcome : FetchOutcome) : List Record :=
  match outcome with
  | .success items => items.filterMap (extract_product_data fields now)
  | _ => []

/-- Observable result of one `search` run: the returned product list plus
the two loop observables — how many pages the loop attempted, and whether
the page-1 zero-result warning-and-break branch (lines 201-211) fired. -/
structure SearchOutput where
  records : List Record
  pagesAttempted : Nat
  warnedNoResults : Bool
deriving DecidableEq, Repr

/-- The `for page in range(1, max_pages + 1)` loop of `search`
(lines 189-215), with the per-page fetch abstracted as
`fetch : page index → FetchOutcome`.  `remaining` counts the loop
iterations left, `acc` is `all_products`, `attempted` the pages done so
far.  Each iteration scrapes the page, extends the accumulator, and breaks
(with the console warning) exactly when the page yielded zero records and
is page 1; the inter-page `time.sleep` is unobservable here. -/
def searchFrom (fetch : Nat → FetchOutcome) (fields : List String)
    (now : String) : Nat → Nat → List Record → Nat → SearchOutput
  | _, 0, acc, attempted => ⟨acc, attempted, false⟩
  | page, remaining + 1, acc, attempted =>
    let products := scrape_page fields now (fetch page)
    let acc2 := acc ++ products
    if products.length = 0 ∧ page = 1 then
      ⟨acc2, attempted + 1, true⟩
    else
      searchFrom fetch fields now (page + 1) remaining acc2 (attempted + 1)

/-- `EbayScraper.search` (lines 166-216), pagination part: run the loop
from page 1 for `maxPages` iterations and return `all_products` together
with the loop observables. -/
def search (fetch : Nat → FetchOutcome) (fields : List String)
    (now : String) (maxPages : Nat) : SearchOutput :=
  searchFrom fetch fields now 1 maxPages [] 0

/-- `EbayScraper.filter_by_condition` (lines 355-366): identity on a falsy
(`None` or empty) condition; otherwise keep the records whose (lowered)
condition field — absent treated as `''` via `product.get('condition', '')`
— contains the lowered condition as a substring. -/
def filter_by_condition (products : List Record)
    (condition : Option String) : List Record :=
  match condition with
  | none => products
  | some c =>
    if c = "" then products
    else products.filter
      (fun p => strIn (pyLower c) (pyLower ((getVal p "condition").getD "")))

/-- The chained `price_str.replace('$','').replace(',','').replace('£','').replace('€','')`
of `display_summary` (line 401): each call removes every occurrence of a
single character, so the chain removes all four characters. -/
def clean_price (s : String) : String :=
  ⟨s.data.filter (fun c => !(c = '$' || c = ',' || c = '£' || c = '€'))⟩

/-- Numeric value of an ASCII digit run. -/
def digitsVal (l : List Char) : Nat :=
  l.foldl (fun a c => 10 * a + (c.toNat - '0'.toNat)) 0

/-- Syntactic stage of Python `float(s)` on a plain decimal string:
optional surrounding whitespace, optional sign, digits with at most one
decimal point and at least one digit.  Returns
(negative?, integer value, fraction value, fraction digit count), or
`none` when `float` would raise `ValueError`.  Exponents, `inf`/`nan` and
digit underscores never reach `float` in this program and are not
modelled. -/
def pyFloatParse (s : String) : Option (Bool × ℕ × ℕ × ℕ) :=
  let t := (pyStrip s).data
  let neg := t.head? == some '-'
  let t := if t.head? == some '-' || t.head? == some '+' then t.tail else t
  let intPart := t.takeWhile Char.isDigit
  let rest := t.dropWhile Char.isDigit
  match rest with
  | [] =>
    if intPart.isEmpty then none
    else some (neg, digitsVal intPart, 0, 0)
  | '.' :: fr =>
    let fracPart := fr.takeWhile Char.isDigit
    let rest2 := fr.dropWhile Char.isDigit
    if rest2.isEmpty && !(intPart.isEmpty && fracPart.isEmpty) then
      some (neg, digitsVal intPart, digitsVal fracPart, fracPart.length)
    else none
  | _ => none

/-- Python `float(s)` on the strings above, as its exact rational value.
(Every numeric value in the claims is exactly representable, so ℚ and the
IEEE doubles Python computes with agree on them.) -/
def pythonFloat (s : String) : Option ℚ :=
  (pyFloatParse s).map fun p =>
    (if p.1 then (-1 : ℚ) else 1) * ((p.2.1 : ℚ) + (p.2.2.1 : ℚ) / (10 : ℚ) ^ p.2.2.2)

/-- Characters of `hay` before the first occurrence of `needle`
(Python `hay.split(needle)[0]`; the whole list when `needle` is absent). -/
def beforeSubAux (needle : List Char) : List Char → List Char
  | [] => []
  | c :: rest =>
    if leadsWith needle (c :: rest) then [] else c :: beforeSubAux needle rest

/-- Python `hay.split(needle)[0]` on strings. -/
def beforeSub (needle hay : String) : String :=
  ⟨beforeSubAux needle.toList hay.toList⟩

/-- The per-record price parse of `display_summary` (lines 400-408):
clean the currency characters, then — if `'to'` occurs — take the stripped
text before the first `'to'`; feed the result to `float`.  A parse failure
means the record is skipped (`except ... continue`). -/
def parse_price (s : String) : Option ℚ :=
  let t := clean_price s
  if strIn "to" t then pythonFloat (pyStrip (beforeSub "to" t))
  else pythonFloat t

/-- The price aggregation of `display_summary` (lines 397-412): parse
every record's price (`product.get('price', '')`), drop failures, and —
when any price parsed — return (average, min, max). -/
def price_statistics (products : List Record) : Option (ℚ × ℚ × ℚ) :=
  let prices := products.filterMap (fun p => parse_price ((getVal p "price").getD ""))
  match prices with
  | [] => none
  | q :: qs =>
    some ((q :: qs).foldl (· + ·) 0 / ((q :: qs).length : ℚ),
      qs.foldl min q, qs.foldl max q)

/-- A query-parameter value: the params dict of `search` holds both
strings and numbers. -/
inductive ParamVal where
  | str (v : String)
  | num (v : ℚ)
deriving DecidableEq, Repr

/-- The `sort_options` dict of `search` (lines 168-173). -/
def sort_options : List (String × Nat) :=
  [("best_match", 12), ("price_low", 15), ("price_high", 16), ("newest", 10)]

/-- The params dict of `search` at the moment the page URL is built
(lines 175-191): `_nkw`, `_sop` (`sort_options.get(sort_by, 12)`),
`_ipg = 60`, then `_udlo`/`_udhi` added only when the price bound is
truthy (Python: not `None` and not zero), then `_pgn = page`.  The page
URL is `base_url + '?' + urlencode(params)`, a function of this list. -/
def build_params (query sort_by : String) (min_price max_price : Option ℚ)
    (page : Nat) : List (String × ParamVal) :=
  [("_nkw", ParamVal.str query),
   ("_sop", ParamVal.num ((getVal sort_options sort_by).getD 12 : Nat)),
   ("_ipg", ParamVal.num 60)] ++
  (match min_price with
   | some v => if v ≠ 0 then [("_udlo", ParamVal.num v)] else []
   | none => []) ++
  (match max_price with
   | some v => if v ≠ 0 then [("_udhi", ParamVal.num v)] else []
   | none => []) ++
  [("_pgn", ParamVal.num page)]

/-- A concrete ordinary listing node: a heading-span title and a price
span, nothing else. -/
def goodNode : ListingNode :=
  { headingSpan := some "Widget", titleDiv := none, titleH3 := none,
    priceSpan := some "$10.00", secondaryInfoSpan := none,
    condTextSpan := none, shippingSpan := none, logisticsCostSpan := none,
    linkA := none, locationSpan := none, itemLocationSpan := none,
    imgTag := none, quantitySoldSpan := none }

/-- A concrete sponsored-banner node: its title text is the rejected
placeholder `"Shop on eBay"`, though a price is present. -/
def spamNode : ListingNode :=
  { headingSpan := some "Shop on eBay", titleDiv := none, titleH3 := none,
    priceSpan := some "$10.00", secondaryInfoSpan := none,
    condTextSpan := none, shippingSpan := none, logisticsCostSpan := none,
    linkA := none, locationSpan := none, itemLocationSpan := none,
    imgTag := none, quantitySoldSpan := none }

/-- A concrete node carrying only a title; every other selector misses. -/
def bareNode : ListingNode :=
  { headingSpan := some "Widget", titleDiv := none, titleH3 := none,
    priceSpan := none, secondaryInfoSpan := none,
    condTextSpan := none, shippingSpan := none, logisticsCostSpan := none,
    linkA := none, locationSpan := none, itemLocationSpan := none,
    imgTag := none, quantitySoldSpan := none }

/-- A concrete per-page fetch oracle: page 2 is rate-limited, every other
page succeeds with one ordinary listing node. -/
def cexFetch : Nat → FetchOutcome := fun p =>
  if p = 2 then .blocked .rateLimited else .success [goodNode]

/-- A concrete fetch oracle whose every page fails with HTTP 500. -/
def emptyFetch : Nat → FetchOutcome := fun _ => .httpError 500

/-- A concrete fetch oracle: page 2 succeeds with zero listing nodes,
every other page succeeds with one ordinary node. -/
def thinFetch : Nat → FetchOutcome := fun p =>
  if p = 2 then .success [] else .success [goodNode]

end EbayScraper



namespace EbayScraper

/-- Claim C9: `filter_by_condition` with an absent (`None`) or empty
condition argument returns the input record sequence unchanged, for every
input sequence. -/
theorem filter_by_condition_identity (products : List Record) :
    filter_by_condition products none = products ∧
    filter_by_condition products (some "") = products :=
  ⟨rfl, rfl⟩

/-- Claim C6 (amended): for a non-empty condition, `filter_by_condition`
keeps exactly the records whose lower-cased condition field contains the
lower-cased condition as a substring; a record whose condition field is
absent is treated as having the empty-string condition (so it is kept only
if the non-empty condition occurs in `""`, i.e. never), rather than
passing through unfiltered. -/
theorem filter_by_condition_semantics (products : List Record) (c : String)
    (p : Record) (hc : c ≠ "") :
    (p ∈ filter_by_condition products (some c) ↔
      p ∈ products ∧
        strIn (pyLower c) (pyLower ((getVal p "condition").getD "")) = true) ∧
    (getVal p "condition" = none →
      (p ∈ filter_by_condition products (some c) ↔
        p ∈ products ∧ strIn (pyLower c) (pyLower "") = true)) := by
  have hmain : p ∈ filter_by_condition products (some c) ↔
      p ∈ products ∧
        strIn (pyLower c) (pyLower ((getVal p "condition").getD "")) = true := by
    simp [filter_by_condition, if_neg hc, List.mem_filter]
  refine ⟨hmain, fun hnone => ?_⟩
  rw [hmain, hnone, Option.getD_none]

/-- Claim C6, counterexample to the claim as stated: a record with no
condition field does not appear in the output of a non-empty condition
filter. -/
theorem filter_by_condition_absent_cex :
    getVal [("title", "X"), ("scraped_at", "t0")] "condition" = none ∧
    filter_by_condition [[("title", "X"), ("scraped_at", "t0")]] (some "new")
      = [] :=
  ⟨rfl, rfl⟩

/-- Claim C6, witness: the semantics theorem applied to a concrete record
whose condition field `"Brand New"` matches the filter `"new"`
case-insensitively. -/
theorem filter_by_condition_semantics_witness :
    [("condition", "Brand New")] ∈
      filter_by_condition [[("condition", "Brand New")]] (some "new") := by
  have h := (filter_by_condition_semantics [[("condition", "Brand New")]]
    "new" [("condition", "Brand New")] (by decide)).1
  exact h.mpr ⟨by simp, by decide⟩

/-- Claim C7: the price statistics over records priced
`"$10.00", "$20.00", "not available"` are average 15, minimum 10 and
maximum 20 — the unparseable entry is excluded, not counted as zero — and
a range-formatted price `"X to Y"` contributes its lower bound `X`. -/
theorem price_statistics_example :
    price_statistics
      [[("price", "$10.00")], [("price", "$20.00")],
        [("price", "not available")]] = some (15, 10, 20) ∧
    parse_price "$5.00 to $8.00" = some 5 := by
  have h10 : parse_price "$10.00" = some 10 := by
    have h : pyFloatParse "10.00" = some (false, 10, 0, 2) := by decide
    have hc : clean_price "$10.00" = "10.00" := by decide
    have hs : strIn "to" "10.00" = false := by decide
    simp only [parse_price, hc, hs, Bool.false_eq_true, if_false,
      pythonFloat, h, Option.map_some]
    norm_num
  have h20 : parse_price "$20.00" = some 20 := by
    have h : pyFloatParse "20.00" = some (false, 20, 0, 2) := by decide
    have hc : clean_price "$20.00" = "20.00" := by decide
    have hs : strIn "to" "20.00" = false := by decide
    simp only [parse_price, hc, hs, Bool.false_eq_true, if_false,
      pythonFloat, h, Option.map_some]
    norm_num
  have hna : parse_price "not available" = none := by
    have hc : clean_price "not available" = "not available" := by decide
    have hs : strIn "to" "not available" = false := by decide
    have h : pyFloatParse "not available" = none := by decide
    simp [parse_price, hc, hs, pythonFloat, h]
  constructor
  · have hlist : List.filterMap
        (fun p => parse_price ((getVal p "price").getD ""))
        [[("price", "$10.00")], [("price", "$20.00")],
          [("price", "not available")]] = [(10 : ℚ), 20] := by
      simp only [List.filterMap_cons, List.filterMap_nil]
      rw [show ((getVal [("price", "$10.00")] "price").getD "") = "$10.00" from rfl,
        show ((getVal [("price", "$20.00")] "price").getD "") = "$20.00" from rfl,
        show ((getVal [("price", "not available")] "price").getD "")
          = "not available" from rfl, h10, h20, hna]
    unfold price_statistics
    rw [hlist]
    simp only [List.foldl, List.length]
    norm_num [min_def, max_def]
  · have hc : clean_price "$5.00 to $8.00" = "5.00 to 8.00" := by decide
    have hs : strIn "to" "5.00 to 8.00" = true := by decide
    have hb : pyStrip (beforeSub "to" "5.00 to 8.00") = "5.00" := by decide
    have h : pyFloatParse "5.00" = some (false, 5, 0, 2) := by decide
    simp only [parse_price, hc, hs, if_true, hb, pythonFloat, h,
      Option.map_some]
    norm_num

/-- Claim C10: a zero `minPrice` (resp. `maxPrice`) is treated exactly
like an absent bound — the `_udlo` (resp. `_udhi`) parameter is omitted,
so the built parameter list (hence the page URL) is the same as with no
bound, all other request fields equal. -/
theorem build_params_zero_bound (query sort_by : String) (mp : Option ℚ)
    (page : Nat) :
    build_params query sort_by (some 0) mp page
      = build_params query sort_by none mp page ∧
    build_params query sort_by mp (some 0) page
      = build_params query sort_by mp none page := by
  constructor <;> simp [build_params]

end EbayScraper

namespace EbayScraper

/-- An entry of `optField` is the named entry. -/
theorem mem_optField {fields : List String} {name value : String}
    {e : String × String} (h : e ∈ optField fields name value) :
    e = (name, value) := by
  unfold optField at h
  split at h
  · simpa using h
  · simp at h

/-- Every non-title entry's key is one of the seven non-title field names. -/
theorem restFields_key {fields : List String} {item : ListingNode}
    {e : String × String} (h : e ∈ restFields fields item) :
    e.1 ∈ ["price", "condition", "shipping", "url", "location",
      "image_url", "sold_count"] := by
  unfold restFields at h
  simp only [List.mem_append] at h
  rcases h with ((((((h | h) | h) | h) | h) | h) | h) <;>
    rw [mem_optField h] <;> simp

/-- Shape of a successful `titlePart`. -/
theorem titlePart_eq_some {fields : List String} {item : ListingNode}
    {tp : List (String × String)} (h : titlePart fields item = some tp) :
    (tp = [] ∧ "title" ∉ fields) ∨
    (∃ t, tp = [("title", t)] ∧ "title" ∈ fields ∧
      titleResult item = some t ∧ t ∉ rejectTitles) := by
  unfold titlePart at h
  split at h
  · rename_i ht
    split at h
    · rename_i t heq
      split at h
      · exact absurd h (by simp)
      · rename_i hrej
        exact Or.inr ⟨t, (Option.some_inj.mp h).symm, ht, heq, hrej⟩
    · exact absurd h (by simp)
  · rename_i ht
    exact Or.inl ⟨(Option.some_inj.mp h).symm, ht⟩

/-- Shape of a successful extraction: the record is the title entry,
then the other requested fields, then the timestamp, and it has more than
one entry. -/
theorem extract_struct {fields : List String} {now : String}
    {item : ListingNode} {rec : Record}
    (h : extract_product_data fields now item = some rec) :
    ∃ tp, titlePart fields item = some tp ∧
      rec = tp ++ restFields fields item ++ [("scraped_at", now)] ∧
      1 < rec.length := by
  unfold extract_product_data at h
  cases htp : titlePart fields item with
  | none => rw [htp] at h; exact absurd h (by simp)
  | some tp =>
    rw [htp] at h
    simp only at h
    split at h
    · exact ⟨tp, rfl, (Option.some_inj.mp h).symm, by
        rw [← Option.some_inj.mp h]; assumption⟩
    · exact absurd h (by simp)

end EbayScraper

namespace EbayScraper

/-- Lookup skips an initial segment holding no entry with the key. -/
theorem getVal_append_of_no_key {α : Type} {l1 l2 : List (String × α)}
    {k : String} (h : ∀ e ∈ l1, e.1 ≠ k) :
    getVal (l1 ++ l2) k = getVal l2 k := by
  induction l1 with
  | nil => rfl
  | cons a t ih =>
    obtain ⟨a1, a2⟩ := a
    simp only [List.cons_append, getVal]
    rw [if_neg (h (a1, a2) (by simp))]
    exact ih (fun e he => h e (by simp [he]))

/-- Lookup of another key skips an `optField` segment. -/
theorem getVal_optField_skip {fields : List String} {n v k : String}
    {l : List (String × String)} (h : n ≠ k) :
    getVal (optField fields n v ++ l) k = getVal l k := by
  apply getVal_append_of_no_key
  intro e he
  rw [mem_optField he]
  exact h

/-- Lookup of a requested field's key finds its `optField` entry. -/
theorem getVal_optField_here {fields : List String} {n v : String}
    {l : List (String × String)} (h : n ∈ fields) :
    getVal (optField fields n v ++ l) n = some v := by
  unfold optField
  rw [if_pos h]
  simp [getVal]

/-- Lookup of a non-title key skips the title entry. -/
theorem getVal_titlePart_skip {fields : List String} {item : ListingNode}
    {tp : List (String × String)} {k : String}
    {l : List (String × String)} (htp : titlePart fields item = some tp)
    (h : k ≠ "title") :
    getVal (tp ++ l) k = getVal l k := by
  apply getVal_append_of_no_key
  intro e he
  rcases titlePart_eq_some htp with ⟨rfl, _⟩ | ⟨t, rfl, _⟩
  · simp at he
  · simp at he
    rw [he]
    exact fun hk => h (hk ▸ rfl)

/-- Claim C4: `_extract_product_data` is a total function of the node and
field set (it cannot raise), and whenever it returns a record, that record
has at least one entry besides the timestamp (so a timestamp-only record
is never returned), is stamped with the timestamp, never carries a
rejected title, and — when the title field was requested — carries a
non-rejected title. -/
theorem extract_shape (fields : List String) (now : String)
    (item : ListingNode) (rec : Record)
    (h : extract_product_data fields now item = some rec) :
    1 ≤ nonTimestampCount rec ∧ 2 ≤ rec.length ∧
    getVal rec "scraped_at" = some now ∧
    (∀ t, getVal rec "title" = some t → t ∉ rejectTitles) ∧
    ("title" ∈ fields → ∃ t, getVal rec "title" = some t ∧ t ∉ rejectTitles) := by
  obtain ⟨tp, htp, hrec, hlen⟩ := extract_struct h
  have hkeysR : ∀ e ∈ restFields fields item, e.1 ≠ "scraped_at" := by
    intro e he
    have hk := restFields_key he
    simp only [List.mem_cons, List.not_mem_nil, or_false] at hk
    rcases hk with h | h | h | h | h | h | h <;> rw [h] <;> decide
  have hkeysT : ∀ e ∈ tp, e.1 ≠ "scraped_at" := by
    intro e he
    rcases titlePart_eq_some htp with ⟨rfl, _⟩ | ⟨t, rfl, _⟩
    · simp at he
    · simp only [List.mem_singleton] at he
      rw [he]
      exact (by decide : ("title" : String) ≠ "scraped_at")
  have hkeys : ∀ e ∈ tp ++ restFields fields item, e.1 ≠ "scraped_at" := by
    intro e he
    rcases List.mem_append.mp he with hm | hm
    · exact hkeysT e hm
    · exact hkeysR e hm
  have hkeysTitle : ∀ e ∈ restFields fields item, e.1 ≠ "title" := by
    intro e he
    have hk := restFields_key he
    simp only [List.mem_cons, List.not_mem_nil, or_false] at hk
    rcases hk with h | h | h | h | h | h | h <;> rw [h] <;> decide
  refine ⟨?_, by omega, ?_, ?_, ?_⟩
  · unfold nonTimestampCount
    rw [hrec, List.filter_append, List.filter_append]
    rw [List.filter_eq_self.mpr (fun e he => by simpa using hkeysT e he),
      List.filter_eq_self.mpr (fun e he => by simpa using hkeysR e he)]
    rw [show List.filter (fun e => e.1 != "scraped_at")
      [("scraped_at", now)] = [] from by simp [List.filter_cons]]
    rw [List.append_nil]
    have h3 := hlen
    rw [hrec] at h3
    simp only [List.length_append, List.length_cons, List.length_nil] at h3 ⊢
    omega
  · rw [hrec, getVal_append_of_no_key hkeys]
    exact rfl
  · intro t hvt
    rcases titlePart_eq_some htp with ⟨htpe, _⟩ | ⟨t0, htpe, _, _, hrej⟩
    · rw [hrec, htpe, List.nil_append,
        getVal_append_of_no_key hkeysTitle] at hvt
      have hnone : getVal [("scraped_at", now)] "title"
          = (none : Option String) := rfl
      rw [hnone] at hvt
      exact absurd hvt (by simp)
    · rw [hrec, htpe] at hvt
      have h0 : getVal (([("title", t0)] ++ restFields fields item) ++
          [("scraped_at", now)]) "title" = some t0 := rfl
      rw [h0] at hvt
      exact Option.some_inj.mp hvt ▸ hrej
  · intro ht
    rcases titlePart_eq_some htp with ⟨_, hnt⟩ | ⟨t0, htpe, _, _, hrej⟩
    · exact absurd ht hnt
    · exact ⟨t0, by rw [hrec, htpe]; exact rfl, hrej⟩

/-- Claim C5: when the title field is requested, a node whose title chain
finds nothing, or locates a text in the rejection set
(`"Shop on eBay"`, `"New Listing"`, `""`), is rejected outright —
`_extract_product_data` returns nothing, whatever else the node offers. -/
theorem extract_title_rejection (fields : List String) (now : String)
    (item : ListingNode) (ht : "title" ∈ fields)
    (h : titleResult item = none ∨
      ∃ t, titleResult item = some t ∧ t ∈ rejectTitles) :
    extract_product_data fields now item = none := by
  have htp : titlePart fields item = none := by
    unfold titlePart
    rw [if_pos ht]
    rcases h with h | ⟨t, h1, h2⟩
    · rw [h]
    · rw [h1]
      simp [h2]
  unfold extract_product_data
  rw [htp]

end EbayScraper

namespace EbayScraper

/-- Every requested non-title field is present in a successful record,
bound to its selector-chain value. -/
theorem extract_fields_lookup {fields : List String} {now : String}
    {item : ListingNode} {rec : Record}
    (h : extract_product_data fields now item = some rec) :
    ("price" ∈ fields → getVal rec "price" = some (priceValue item)) ∧
    ("condition" ∈ fields →
      getVal rec "condition" = some (conditionValue item)) ∧
    ("shipping" ∈ fields →
      getVal rec "shipping" = some (shippingValue item)) ∧
    ("url" ∈ fields → getVal rec "url" = some (urlValue item)) ∧
    ("location" ∈ fields →
      getVal rec "location" = some (locationValue item)) ∧
    ("image_url" ∈ fields →
      getVal rec "image_url" = some (imageValue item)) ∧
    ("sold_count" ∈ fields →
      getVal rec "sold_count" = some (soldValue item)) := by
  obtain ⟨tp, htp, hrec, _⟩ := extract_struct h
  rw [hrec]
  unfold restFields
  simp only [List.append_assoc]
  refine ⟨fun hf => ?_, fun hf => ?_, fun hf => ?_, fun hf => ?_,
    fun hf => ?_, fun hf => ?_, fun hf => ?_⟩
  · rw [getVal_titlePart_skip htp (by decide)]
    exact getVal_optField_here hf
  · rw [getVal_titlePart_skip htp (by decide),
      getVal_optField_skip (by decide)]
    exact getVal_optField_here hf
  · rw [getVal_titlePart_skip htp (by decide),
      getVal_optField_skip (by decide), getVal_optField_skip (by decide)]
    exact getVal_optField_here hf
  · rw [getVal_titlePart_skip htp (by decide),
      getVal_optField_skip (by decide), getVal_optField_skip (by decide),
      getVal_optField_skip (by decide)]
    exact getVal_optField_here hf
  · rw [getVal_titlePart_skip htp (by decide),
      getVal_optField_skip (by decide), getVal_optField_skip (by decide),
      getVal_optField_skip (by decide), getVal_optField_skip (by decide)]
    exact getVal_optField_here hf
  · rw [getVal_titlePart_skip htp (by decide),
      getVal_optField_skip (by decide), getVal_optField_skip (by decide),
      getVal_optField_skip (by decide), getVal_optField_skip (by decide),
      getVal_optField_skip (by decide)]
    exact getVal_optField_here hf
  · rw [getVal_titlePart_skip htp (by decide),
      getVal_optField_skip (by decide), getVal_optField_skip (by decide),
      getVal_optField_skip (by decide), getVal_optField_skip (by decide),
      getVal_optField_skip (by decide), getVal_optField_skip (by decide)]
    exact getVal_optField_here hf

/-- Claim C8 (amended): when a requested non-title field's selector chain
finds no match, the record stores the `'N/A'` ("not available") sentinel
for that field — except `sold_count`, whose no-match value is `'0'`. -/
theorem extract_missing_field_sentinels (fields : List String)
    (now : String) (item : ListingNode) (rec : Record)
    (h : extract_product_data fields now item = some rec) :
    ("price" ∈ fields → item.priceSpan = none →
      getVal rec "price" = some "N/A") ∧
    ("condition" ∈ fields → item.secondaryInfoSpan = none →
      item.condTextSpan = none → getVal rec "condition" = some "N/A") ∧
    ("shipping" ∈ fields → item.shippingSpan = none →
      item.logisticsCostSpan = none →
      getVal rec "shipping" = some "N/A") ∧
    ("url" ∈ fields → (item.linkA = none ∨ item.linkA = some none) →
      getVal rec "url" = some "N/A") ∧
    ("location" ∈ fields → item.locationSpan = none →
      item.itemLocationSpan = none →
      getVal rec "location" = some "N/A") ∧
    ("image_url" ∈ fields →
      (item.imgTag = none ∨ item.imgTag = some (none, none)) →
      getVal rec "image_url" = some "N/A") ∧
    ("sold_count" ∈ fields → item.quantitySoldSpan = none →
      getVal rec "sold_count" = some "0") := by
  obtain ⟨h1, h2, h3, h4, h5, h6, h7⟩ := extract_fields_lookup h
  refine ⟨fun hf hn => ?_, fun hf hn1 hn2 => ?_, fun hf hn1 hn2 => ?_,
    fun hf hn => ?_, fun hf hn1 hn2 => ?_, fun hf hn => ?_,
    fun hf hn => ?_⟩
  · rw [h1 hf]
    simp [priceValue, hn]
  · rw [h2 hf]
    simp [conditionValue, hn1, hn2]
  · rw [h3 hf]
    simp [shippingValue, hn1, hn2]
  · rw [h4 hf]
    rcases hn with hn | hn <;> simp [urlValue, hn]
  · rw [h5 hf]
    simp [locationValue, hn1, hn2]
  · rw [h6 hf]
    rcases hn with hn | hn <;> simp [imageValue, hn]
  · rw [h7 hf]
    simp [soldValue, hn]

/-- Claim C8, counterexample to the claim as stated: on a node whose
sold-count selector finds nothing, the stored value is `'0'`, not the
"not available" sentinel. -/
theorem extract_sold_count_sentinel_cex :
    extract_product_data ["title", "sold_count"] "t0" bareNode
      = some [("title", "Widget"), ("sold_count", "0"),
        ("scraped_at", "t0")] ∧
    getVal [("title", "Widget"), ("sold_count", "0"), ("scraped_at", "t0")]
      "sold_count" = some "0" ∧
    ("0" : String) ≠ "N/A" ∧ ("0" : String) ≠ "not available" :=
  ⟨rfl, rfl, by decide, by decide⟩

/-- Claim C8, witness: the amended sentinel theorem applied to concrete
extractions in which the price and the sold-count selectors miss. -/
theorem extract_missing_field_sentinels_witness :
    getVal [("title", "Widget"), ("price", "N/A"), ("scraped_at", "t0")]
      "price" = some "N/A" ∧
    getVal [("title", "Widget"), ("sold_count", "0"), ("scraped_at", "t0")]
      "sold_count" = some "0" := by
  constructor
  · exact (extract_missing_field_sentinels ["title", "price"] "t0" bareNode
      _ rfl).1 (by decide) rfl
  · exact (extract_missing_field_sentinels ["title", "sold_count"] "t0"
      bareNode _ rfl).2.2.2.2.2.2 (by decide) rfl

/-- Claim C4, witness: the shape theorem applied to a concrete successful
extraction. -/
theorem extract_shape_witness :
    1 ≤ nonTimestampCount
      [("title", "Widget"), ("price", "$10.00"), ("scraped_at", "t0")] :=
  (extract_shape ["title", "price"] "t0" goodNode _ rfl).1

/-- Claim C5, witness: the rejection theorem applied to a concrete node
titled `"Shop on eBay"`. -/
theorem extract_title_rejection_witness :
    extract_product_data ["title", "price"] "t0" spamNode = none :=
  extract_title_rejection ["title", "price"] "t0" spamNode (by decide)
    (Or.inr ⟨"Shop on eBay", rfl, by decide⟩)

end EbayScraper

namespace EbayScraper

/-- Any failed fetch outcome lands in an `except` clause of
`_scrape_page` and yields the empty record list. -/
theorem scrape_page_of_failure {o : FetchOutcome} (fields : List String)
    (now : String) (h : isFetchFailure o = true) :
    scrape_page fields now o = [] := by
  cases o with
  | success items => exact absurd h (by simp [isFetchFailure])
  | httpError s => rfl
  | transportError m => rfl
  | blocked r => rfl

/-- Whatever the loop does from any state, the records accumulated so far
stay at the front of the final record list. -/
theorem searchFrom_records_extends (fetch : Nat → FetchOutcome)
    (fields : List String) (now : String) :
    ∀ n page acc att, ∃ tail,
      (searchFrom fetch fields now page n acc att).records = acc ++ tail := by
  intro n
  induction n with
  | zero =>
    intro page acc att
    exact ⟨[], by simp [searchFrom]⟩
  | succ m ih =>
    intro page acc att
    simp only [searchFrom]
    split
    · exact ⟨scrape_page fields now (fetch page), rfl⟩
    · obtain ⟨t, ht⟩ := ih (page + 1) (acc ++ scrape_page fields now (fetch page)) (att + 1)
      exact ⟨scrape_page fields now (fetch page) ++ t, by
        rw [ht, List.append_assoc]⟩

/-- From any page other than page 1, one loop iteration never breaks: it
accumulates the page's records and moves on to the next page. -/
theorem searchFrom_step_ne_one (fetch : Nat → FetchOutcome)
    (fields : List String) (now : String) {page : Nat} (hp : page ≠ 1)
    (n : Nat) (acc : List Record) (att : Nat) :
    searchFrom fetch fields now page (n + 1) acc att
      = searchFrom fetch fields now (page + 1) n
          (acc ++ scrape_page fields now (fetch page)) (att + 1) := by
  simp only [searchFrom]
  rw [if_neg (fun hc => hp hc.2)]

/-- From page 2 on, the loop always runs out its remaining iterations
(one page attempted per iteration) and never fires the page-1 warning. -/
theorem searchFrom_from_two (fetch : Nat → FetchOutcome)
    (fields : List String) (now : String) :
    ∀ n page acc att, 2 ≤ page →
      (searchFrom fetch fields now page n acc att).pagesAttempted = att + n ∧
      (searchFrom fetch fields now page n acc att).warnedNoResults = false := by
  intro n
  induction n with
  | zero =>
    intro page acc att _
    exact ⟨rfl, rfl⟩
  | succ m ih =>
    intro page acc att hp
    rw [searchFrom_step_ne_one fetch fields now (by omega) m acc att]
    obtain ⟨h1, h2⟩ := ih (page + 1)
      (acc ++ scrape_page fields now (fetch page)) (att + 1) (by omega)
    exact ⟨by rw [h1]; omega, h2⟩

/-- Claim C1 (amended): a page whose fetch fails (`HttpError`,
`TransportError` or `Blocked`) contributes zero records, and the code
cannot tell that apart from an empty page: pagination stops immediately
(with the zero-result warning and an empty result) only when the failing
page is page 1; from page 2 on the loop continues to the next page
instead of stopping; no stop reason is recorded anywhere in the returned
result; and records accumulated before the failing page are preserved in
the final record list. -/
theorem search_fetch_failure_policy (fetch : Nat → FetchOutcome)
    (fields : List String) (now : String) (p : Nat)
    (hf : isFetchFailure (fetch p) = true) :
    scrape_page fields now (fetch p) = [] ∧
    (∀ maxPages, p = 1 → 1 ≤ maxPages →
      search fetch fields now maxPages = ⟨[], 1, true⟩) ∧
    (2 ≤ p → ∀ n acc att,
      searchFrom fetch fields now p (n + 1) acc att
        = searchFrom fetch fields now (p + 1) n acc (att + 1)) ∧
    (∀ n page acc att, ∃ tail,
      (searchFrom fetch fields now page n acc att).records = acc ++ tail) := by
  have hz : scrape_page fields now (fetch p) = [] :=
    scrape_page_of_failure fields now hf
  refine ⟨hz, ?_, ?_, searchFrom_records_extends fetch fields now⟩
  · intro maxPages hp hm
    subst hp
    cases maxPages with
    | zero => omega
    | succ m =>
      unfold search
      simp only [searchFrom]
      rw [hz]
      simp
  · intro hp2 n acc att
    rw [searchFrom_step_ne_one fetch fields now (by omega) n acc att, hz,
      List.append_nil]

/-- Claim C1, witness: the policy theorem applied to the concrete oracle
whose page 2 is rate-limited. -/
theorem search_fetch_failure_policy_witness :
    scrape_page ["title", "price"] "t0" (cexFetch 2) = [] :=
  (search_fetch_failure_policy cexFetch ["title", "price"] "t0" 2 rfl).1

/-- Claim C1, counterexample to the claim as stated: with page 2 blocked
(`RateLimited`) and `maxPages = 3`, the loop still attempts page 3 — the
result records three attempted pages, contains page 3's records after
page 1's, and carries no stop reason (`warnedNoResults` is `false`). -/
theorem search_blocked_page2_continues_cex :
    cexFetch 2 = FetchOutcome.blocked BlockReason.rateLimited ∧
    search cexFetch ["title", "price"] "t0" 3 =
      ⟨[[("title", "Widget"), ("price", "$10.00"), ("scraped_at", "t0")],
        [("title", "Widget"), ("price", "$10.00"), ("scraped_at", "t0")]],
        3, false⟩ :=
  ⟨rfl, rfl⟩

/-- Claim C2: when page 1 yields zero records — whether its fetch failed
or no listing node produced a record — the loop attempts exactly one page
and reports the early stop, whatever `maxPages ≥ 1` was. -/
theorem search_page1_zero_stops (fetch : Nat → FetchOutcome)
    (fields : List String) (now : String) (maxPages : Nat)
    (hm : 1 ≤ maxPages) (h1 : scrape_page fields now (fetch 1) = []) :
    search fetch fields now maxPages = ⟨[], 1, true⟩ := by
  cases maxPages with
  | zero => omega
  | succ m =>
    unfold search
    simp only [searchFrom]
    rw [h1]
    simp

/-- Claim C2, witness: a fetch oracle failing on every page with HTTP 500
makes a 3-page search stop after page 1 with the warning. -/
theorem search_page1_zero_stops_witness :
    search emptyFetch ["title"] "t0" 3 = ⟨[], 1, true⟩ :=
  search_page1_zero_stops emptyFetch ["title"] "t0" 3 (by omega) rfl

/-- Claim C3: zero-record pages after page 1 never stop pagination — as
soon as page 1 yields at least one record, the loop attempts exactly
`maxPages` pages and never fires the early-stop warning; moreover one
iteration at any page index other than 1 always proceeds to the next
page, whatever that page yielded. -/
theorem search_zero_after_page1_no_stop (fetch : Nat → FetchOutcome)
    (fields : List String) (now : String) (maxPages : Nat)
    (hm : 1 ≤ maxPages) (h1 : scrape_page fields now (fetch 1) ≠ []) :
    (search fetch fields now maxPages).pagesAttempted = maxPages ∧
    (search fetch fields now maxPages).warnedNoResults = false ∧
    (∀ page n acc att, 2 ≤ page →
      searchFrom fetch fields now page (n + 1) acc att
        = searchFrom fetch fields now (page + 1) n
            (acc ++ scrape_page fields now (fetch page)) (att + 1)) := by
  have hstep : ∀ page n acc att, 2 ≤ page →
      searchFrom fetch fields now page (n + 1) acc att
        = searchFrom fetch fields now (page + 1) n
            (acc ++ scrape_page fields now (fetch page)) (att + 1) :=
    fun page n acc att hp =>
      searchFrom_step_ne_one fetch fields now (by omega) n acc att
  cases maxPages with
  | zero => omega
  | succ m =>
    have hrun : search fetch fields now (m + 1)
        = searchFrom fetch fields now 2 m
            ([] ++ scrape_page fields now (fetch 1)) 1 := by
      unfold search
      simp only [searchFrom]
      rw [if_neg (fun hc => h1 (List.length_eq_zero.mp hc.1))]
    obtain ⟨ha, hw⟩ := searchFrom_from_two fetch fields now m 2
      ([] ++ scrape_page fields now (fetch 1)) 1 (by omega)
    exact ⟨by rw [hrun, ha]; omega, by rw [hrun, hw], hstep⟩

/-- Claim C3, witness: with page 2 succeeding with zero nodes and pages 1
and 3 non-empty, a 3-page search still attempts all 3 pages with no
early-stop warning. -/
theorem search_zero_after_page1_no_stop_witness :
    (search thinFetch ["title", "price"] "t0" 3).pagesAttempted = 3 ∧
    (search thinFetch ["title", "price"] "t0" 3).warnedNoResults = false := by
  obtain ⟨h1, h2, _⟩ := search_zero_after_page1_no_stop thinFetch
    ["title", "price"] "t0" 3 (by omega) (by decide)
  exact ⟨h1, h2⟩

end EbayScraper
